import Mathlib

/-!
Verification of the DNS record codec of the `who` repository.

The wire data is modelled as `List Nat` (one entry per byte); parsers are
functions `List Nat → Except Err (rest × value)` mirroring the nom parsers of
the source.  `src/src/dns/record.rs` (`parse_record`, `DeSerialize for Record`)
and `src/src/main.rs` (`validate`) are embedded from the source; the leaf
parsers of the `parse_utils` module, the `QType`/`QClass` enumerations and the
`validation` module are not part of the provided sources and are modelled from
the specification (each such definition is marked `Modelled from the spec:`).
-/

namespace Who

/-- Modelled from the spec: the error taxonomy of §7.  The source's nom error
codes are not in the provided files; the spec names four terminal kinds. -/
inductive Err where
  | TruncatedInput
  | MalformedName
  | UnsupportedCode
  | LengthMismatch
deriving DecidableEq, Repr

/-- Modelled from the spec: the closed `QType` enumeration of §3 with wire
codes A=1, NS=2, CNAME=5, SOA=6, MX=15, TXT=16, AAAA=28 (the enum itself lives
outside the provided sources). -/
inductive QType where
  | A
  | NS
  | CNAME
  | SOA
  | MX
  | TXT
  | AAAA
deriving DecidableEq, Repr

/-- Modelled from the spec: the closed `QClass` enumeration of §3 (IN=1). -/
inductive QClass where
  | IN
deriving DecidableEq, Repr

/-- The `RData` tagged union of `record.rs`.  `Ipv4Addr` is four octets,
`Ipv6Addr` is kept as its sixteen raw octets, `String` fields as in the
source. -/
inductive RData where
  | A (a b c d : Nat)
  | CNAME (name : String)
  | TXT (txt : String)
  | AAAA (bytes : List Nat)
  | NS (name : String)
  | MX (preference : Nat) (exchange : String)
  | SOA (mname rname : String) (serial refresh retry expire minimum : Nat)
deriving DecidableEq, Repr

/-- The `Record` struct of `record.rs`.  `ttl` is a `Duration` in the source;
it is built from a 32-bit second count, modelled here as that count. -/
structure Record where
  name : String
  qtype : QType
  qclass : QClass
  ttl : Nat
  rd_length : Nat
  rdata : RData
deriving DecidableEq, Repr

/-- The `Buffer` struct of the dns module: `current` is the remaining
unparsed view, `source` the full original message (its shape is visible in
`record.rs` and `main.rs` even though its declaration is not under `src/`). -/
structure Buffer where
  current : List Nat
  source : List Nat
deriving DecidableEq, Repr

/-- Modelled from the spec: big-endian 16-bit read (`nom::be_u16`), failing
with `TruncatedInput` when fewer than two bytes remain (§4.1). -/
def be_u16 : List Nat → Except Err (List Nat × Nat)
  | a :: b :: rest => .ok (rest, a * 256 + b)
  | _ => .error .TruncatedInput

/-- Modelled from the spec: big-endian 32-bit read (`nom::be_u32`), failing
with `TruncatedInput` when fewer than four bytes remain (§4.1). -/
def be_u32 : List Nat → Except Err (List Nat × Nat)
  | a :: b :: c :: d :: rest => .ok (rest, ((a * 256 + b) * 256 + c) * 256 + d)
  | _ => .error .TruncatedInput

/-- Modelled from the spec: the symbolic→numeric `QType` table of §3. -/
def qtypeOfCode (c : Nat) : Option QType :=
  if c = 1 then some .A
  else if c = 2 then some .NS
  else if c = 5 then some .CNAME
  else if c = 6 then some .SOA
  else if c = 15 then some .MX
  else if c = 16 then some .TXT
  else if c = 28 then some .AAAA
  else none

/-- Modelled from the spec: the `QClass` table of §3 (IN=1). -/
def qclassOfCode (c : Nat) : Option QClass :=
  if c = 1 then some .IN else none

/-- Modelled from the spec: `parse_qtype` of `parse_utils` — a 16-bit read
mapped through the `QType` table; an unrecognized code is an
`UnsupportedCode` failure, never a default (§3, §4.7). -/
def parse_qtype (buffer : List Nat) : Except Err (List Nat × QType) :=
  match be_u16 buffer with
  | .error e => .error e
  | .ok (rest, c) =>
    match qtypeOfCode c with
    | some q => .ok (rest, q)
    | none => .error .UnsupportedCode

/-- Modelled from the spec: `parse_qclass` of `parse_utils` (§3, §4.7). -/
def parse_qclass (buffer : List Nat) : Except Err (List Nat × QClass) :=
  match be_u16 buffer with
  | .error e => .error e
  | .ok (rest, c) =>
    match qclassOfCode c with
    | some q => .ok (rest, q)
    | none => .error .UnsupportedCode

/-- Modelled from the spec: `parse_ttl` of `parse_utils` — a 32-bit second
count (§4.5). -/
def parse_ttl (buffer : List Nat) : Except Err (List Nat × Nat) :=
  be_u32 buffer

/-- Modelled from the spec: `parse_rdlength` of `parse_utils` — a 16-bit
length (§4.5). -/
def parse_rdlength (buffer : List Nat) : Except Err (List Nat × Nat) :=
  be_u16 buffer

/-- Modelled from the spec: `parse_ipv4` of `parse_utils` — four raw bytes as
an IPv4 address (§4.5), `TruncatedInput` when fewer remain. -/
def parse_ipv4 : List Nat → Except Err (List Nat × Nat × Nat × Nat × Nat)
  | a :: b :: c :: d :: rest => .ok (rest, a, b, c, d)
  | _ => .error .TruncatedInput

/-- Takes `n` bytes from the front of the buffer, `TruncatedInput` when fewer
remain (the consume-n-bytes operation of §4.1). -/
def takeBytes (n : Nat) (buffer : List Nat) : Except Err (List Nat × List Nat) :=
  if n ≤ buffer.length then .ok (buffer.drop n, buffer.take n)
  else .error .TruncatedInput

/-- Modelled from the spec: `parse_ipv6` of `parse_utils` — sixteen raw bytes
as an IPv6 address (§4.5). -/
def parse_ipv6 (buffer : List Nat) : Except Err (List Nat × List Nat) :=
  takeBytes 16 buffer

/-- One byte of label text, as the source builds label strings from raw
bytes. -/
def bytesToString (bs : List Nat) : String :=
  String.mk (bs.map Char.ofNat)

/-- Modelled from the spec: `take_token` of `parse_utils` — exactly `n` raw
bytes taken as one opaque string (§4.5 TXT row). -/
def take_token (buffer : List Nat) (n : Nat) : Except Err (List Nat × String) :=
  match takeBytes n buffer with
  | .error e => .error e
  | .ok (rest, bs) => .ok (rest, bytesToString bs)

/-- Intermediate outcome of the label-reading loop of the name codec: either
the terminating zero byte was reached (`done` carries the remaining caller
bytes and the assembled labels in order), or a compression pointer was hit
(`jump` carries the bytes after the two pointer bytes, the 14-bit absolute
offset, and the label accumulator still in reversed order). -/
inductive LabelStep where
  | done (rest : List Nat) (labels : List String)
  | jump (rest : List Nat) (offset : Nat) (labels : List String)
deriving DecidableEq, Repr

/-- Modelled from the spec: the label-reading loop of the Name Codec (§4.2),
one byte at a time.  `pending = 0` expects a length byte: 0 terminates,
1..63 starts a literal label, ≥192 is a compression pointer whose low 6 bits
join the following byte into an absolute offset, and the reserved patterns
64..191 are a `MalformedName` failure.  `pending = k+1` reads the next of the
current label's bytes into `cs` (reversed); `acc` accumulates finished labels
in reversed order. -/
def readLabelsAux : List Nat → Nat → List Char → List String → Except Err LabelStep
  | [], 0, _, _ => .error .TruncatedInput
  | l :: rest, 0, _, acc =>
    if l = 0 then .ok (.done rest acc.reverse)
    else if l < 64 then readLabelsAux rest l [] acc
    else if 192 ≤ l then
      match rest with
      | [] => .error .TruncatedInput
      | o2 :: rest2 => .ok (.jump rest2 ((l % 64) * 256 + o2) acc)
    else .error .MalformedName
  | [], _ + 1, _, _ => .error .TruncatedInput
  | b :: rest, k + 1, cs, acc =>
    if k = 0 then readLabelsAux rest 0 [] (String.mk (Char.ofNat b :: cs).reverse :: acc)
    else readLabelsAux rest k (Char.ofNat b :: cs) acc

/-- Modelled from the spec: pointer-chasing loop of the Name Codec (§4.2).
An offset already in the per-decode visited set is a `MalformedName` failure
(cycle protection), as is an offset at or beyond the end of `source` (§4.1
resolve-absolute-offset).  Otherwise reading continues at that offset of
`source` with the offset recorded as visited.  The structural `fuel`
decreases only on pointer indirection; `followJump_fuel_stable` below shows
the initial fuel `source.length + 1` is never exhausted, so the fuel is an
implementation of termination, not a semantic bound. -/
def followJump : Nat → Nat → List Nat → List Nat → List String → Except Err (List String × List Nat)
  | 0, _, _, _, _ => .error .MalformedName
  | fuel + 1, offset, source, visited, acc =>
    if offset ∈ visited then .error .MalformedName
    else if source.length ≤ offset then .error .MalformedName
    else
      match readLabelsAux (source.drop offset) 0 [] acc with
      | .error e => .error e
      | .ok (.done _ labels) => .ok (labels, offset :: visited)
      | .ok (.jump _ offset2 labels) => followJump fuel offset2 source (offset :: visited) labels

/-- Modelled from the spec: final name assembly of the Name Codec (§4.2) —
labels joined with "."; a total assembled length beyond 255 is a
`MalformedName` failure. -/
def finishName (labels : List String) : Except Err String :=
  let name := String.intercalate "." labels
  if 255 < name.length then .error .MalformedName else .ok name

/-- Name decode with explicit pointer fuel; `parse_names` fixes the fuel at
`source.length + 1`.  Returns the caller-visible rest (past the terminating
zero byte, or past the first 2-byte pointer), the assembled name, and the
updated visited set `t` (the `&mut Vec` of the source). -/
def parseNamesWithFuel (fuel : Nat) (buffer source : List Nat) (t : List Nat) :
    Except Err (List Nat × String × List Nat) :=
  match readLabelsAux buffer 0 [] [] with
  | .error e => .error e
  | .ok (.done rest labels) =>
    match finishName labels with
    | .error e => .error e
    | .ok name => .ok (rest, name, t)
  | .ok (.jump rest offset labels) =>
    match followJump fuel offset source t labels with
    | .error e => .error e
    | .ok (labels2, t2) =>
      match finishName labels2 with
      | .error e => .error e
      | .ok name => .ok (rest, name, t2)

/-- Modelled from the spec: `parse_names` of `parse_utils` — the Name Codec
decode of §4.2 (literal labels, compression pointers with per-decode
visited-offset cycle protection, 255-byte total bound). -/
def parse_names (buffer source : List Nat) (t : List Nat) :
    Except Err (List Nat × String × List Nat) :=
  parseNamesWithFuel (source.length + 1) buffer source t

/-- The RDATA dispatch of `parse_record` (`record.rs` lines 159–211), one arm
per `QType` constructor.  `t` is the visited-offset vector created at line
153 and already populated by the owner-name decode: the source passes
`&mut t` for NS (line 178), MX (line 183) and SOA (lines 193–194), but a
fresh `Vec::new()` for CNAME (line 165).  The `QType` enumeration being
closed (§3), the seven arms are exhaustive and the source's
`_ => unimplemented!()` arm (line 210) has no counterpart here because it is
unreachable. -/
def parseRDataDispatch (qtype : QType) (rd_length : Nat) (buffer source : List Nat)
    (t : List Nat) : Except Err (List Nat × RData) :=
  match qtype with
  | .A =>
    match parse_ipv4 buffer with
    | .error e => .error e
    | .ok (rest, a, b, c, d) => .ok (rest, .A a b c d)
  | .CNAME =>
    match parse_names buffer source [] with
    | .error e => .error e
    | .ok (rest, name, _) => .ok (rest, .CNAME name)
  | .TXT =>
    match take_token buffer rd_length with
    | .error e => .error e
    | .ok (rest, txt) => .ok (rest, .TXT txt)
  | .AAAA =>
    match parse_ipv6 buffer with
    | .error e => .error e
    | .ok (rest, bytes) => .ok (rest, .AAAA bytes)
  | .NS =>
    match parse_names buffer source t with
    | .error e => .error e
    | .ok (rest, name, _) => .ok (rest, .NS name)
  | .MX =>
    match be_u16 buffer with
    | .error e => .error e
    | .ok (rest, preference) =>
      match parse_names rest source t with
      | .error e => .error e
      | .ok (rest2, exchange, _) => .ok (rest2, .MX preference exchange)
  | .SOA =>
    match parse_names buffer source t with
    | .error e => .error e
    | .ok (rest, mname, t2) =>
      match parse_names rest source t2 with
      | .error e => .error e
      | .ok (rest2, rname, _) =>
        match be_u32 rest2 with
        | .error e => .error e
        | .ok (rest3, serial) =>
          match be_u32 rest3 with
          | .error e => .error e
          | .ok (rest4, refresh) =>
            match be_u32 rest4 with
            | .error e => .error e
            | .ok (rest5, retry) =>
              match be_u32 rest5 with
              | .error e => .error e
              | .ok (rest6, expire) =>
                match be_u32 rest6 with
                | .error e => .error e
                | .ok (rest7, minimum) =>
                  .ok (rest7, .SOA mname rname serial refresh retry expire minimum)

/-- `parse_record` of `record.rs` (lines 152–217): owner name with a fresh
visited vector `t`, then qtype, qclass, ttl, rd_length, then the RDATA
dispatch sharing `t`. -/
def parse_record (buffer source : List Nat) : Except Err (List Nat × Record) :=
  match parse_names buffer source [] with
  | .error e => .error e
  | .ok (buffer1, name, t) =>
    match parse_qtype buffer1 with
    | .error e => .error e
    | .ok (buffer2, qtype) =>
      match parse_qclass buffer2 with
      | .error e => .error e
      | .ok (buffer3, qclass) =>
        match parse_ttl buffer3 with
        | .error e => .error e
        | .ok (buffer4, ttl) =>
          match parse_rdlength buffer4 with
          | .error e => .error e
          | .ok (buffer5, rd_length) =>
            match parseRDataDispatch qtype rd_length buffer5 source t with
            | .error e => .error e
            | .ok (buffer6, rdata) =>
              .ok (buffer6,
                { name := name, qtype := qtype, qclass := qclass, ttl := ttl,
                  rd_length := rd_length, rdata := rdata })

/-- `DeSerialize for Record` (`record.rs` lines 219–231): runs `parse_record`
on `buffer.current` against `buffer.source`; on success the current view is
replaced by the unconsumed rest, on failure the buffer is returned untouched
(the source assigns `buffer.current` only after the `?` succeeds).  The
`&mut Buffer` is modelled by returning the buffer alongside the result. -/
def Record.deserialize (b : Buffer) : Buffer × Except Err Record :=
  match parse_record b.current b.source with
  | .ok (buf, record) => ({ b with current := buf }, .ok record)
  | .error e => (b, .error e)

/-- Modelled from the spec: `check_length` of the `validation` module —
rejects names longer than 255 bytes (§6). -/
def check_length (address : String) : Bool :=
  decide (address.utf8ByteSize ≤ 255)

/-- Splits a character sequence on the dots, the glossary's "dot-separated
segment" notion of a label. -/
def splitDot : List Char → List (List Char)
  | [] => [[]]
  | c :: rest =>
    match splitDot rest with
    | [] => [[]]
    | l :: ls => if c = '.' then [] :: l :: ls else (c :: l) :: ls

/-- UTF-8 byte size of one label. -/
def labelByteSize (l : List Char) : Nat :=
  (l.map Char.utf8Size).sum

/-- Modelled from the spec: `check_token_length` of the `validation` module —
rejects names containing a dot-separated label longer than 63 bytes (§6),
returning the offending token for the error message and the verdict. -/
def check_token_length (address : String) : String × Bool :=
  match (splitDot address.data).find? (fun l => decide (63 < labelByteSize l)) with
  | some tok => (String.mk tok, false)
  | none => (address, true)

/-- `validate` of `main.rs` (lines 145–162): total length first, then label
lengths; the accepted name is returned unchanged. -/
def validate (address : String) : Except String String :=
  if check_length address = false then
    .error "exceeds maximum length of 255"
  else
    match check_token_length address with
    | (value, result) =>
      if result = false then .error "token exceeds maximum length of 63"
      else .ok value

/-- Spec-side 16-bit read, written from §4.1's "read fixed-width big-endian
unsigned integers": consume two bytes, fold them big-endian.  Compared with
the implementation-side `be_u16` in `specReadU16_eq`. -/
def specReadU16 (buffer : List Nat) : Except Err (List Nat × Nat) :=
  match takeBytes 2 buffer with
  | .error e => .error e
  | .ok (rest, bs) => .ok (rest, bs.foldl (fun acc b => acc * 256 + b) 0)

/-- Spec-side 32-bit big-endian read (§4.1), compared with `be_u32` in
`specReadU32_eq`. -/
def specReadU32 (buffer : List Nat) : Except Err (List Nat × Nat) :=
  match takeBytes 4 buffer with
  | .error e => .error e
  | .ok (rest, bs) => .ok (rest, bs.foldl (fun acc b => acc * 256 + b) 0)

/-- Spec-side RDATA decode, written from the dispatch table of §4.5: A is 4
raw bytes as IPv4, AAAA 16 raw bytes as IPv6, CNAME and NS one (possibly
compressed) name, TXT exactly `rd_length` raw bytes as one opaque string,
MX a 16-bit preference followed by one name, SOA two names followed by five
32-bit fields.  The table says nothing about the pointer-bookkeeping state
`t`, which is threaded as the implementation does (fresh for CNAME, shared
otherwise — the subject of C9). -/
def specRData (qtype : QType) (rd_length : Nat) (buffer source t : List Nat) :
    Except Err (List Nat × RData) :=
  match qtype with
  | .A =>
    match takeBytes 4 buffer with
    | .error e => .error e
    | .ok (rest, bs) => .ok (rest, .A (bs.getD 0 0) (bs.getD 1 0) (bs.getD 2 0) (bs.getD 3 0))
  | .AAAA =>
    match takeBytes 16 buffer with
    | .error e => .error e
    | .ok (rest, bs) => .ok (rest, .AAAA bs)
  | .CNAME =>
    match parse_names buffer source [] with
    | .error e => .error e
    | .ok (rest, n, _) => .ok (rest, .CNAME n)
  | .NS =>
    match parse_names buffer source t with
    | .error e => .error e
    | .ok (rest, n, _) => .ok (rest, .NS n)
  | .TXT =>
    match takeBytes rd_length buffer with
    | .error e => .error e
    | .ok (rest, bs) => .ok (rest, .TXT (bytesToString bs))
  | .MX =>
    match specReadU16 buffer with
    | .error e => .error e
    | .ok (rest, preference) =>
      match parse_names rest source t with
      | .error e => .error e
      | .ok (rest2, exchange, _) => .ok (rest2, .MX preference exchange)
  | .SOA =>
    match parse_names buffer source t with
    | .error e => .error e
    | .ok (rest, mname, t2) =>
      match parse_names rest source t2 with
      | .error e => .error e
      | .ok (rest2, rname, _) =>
        match specReadU32 rest2 with
        | .error e => .error e
        | .ok (rest3, serial) =>
          match specReadU32 rest3 with
          | .error e => .error e
          | .ok (rest4, refresh) =>
            match specReadU32 rest4 with
            | .error e => .error e
            | .ok (rest5, retry) =>
              match specReadU32 rest5 with
              | .error e => .error e
              | .ok (rest6, expire) =>
                match specReadU32 rest6 with
                | .error e => .error e
                | .ok (rest7, minimum) =>
                  .ok (rest7, .SOA mname rname serial refresh retry expire minimum)

/-- Spec-side record decode, transcribed from §4.5's sentence "Decode one
record: Name Codec → qtype → qclass → ttl (32-bit seconds) → rd_length
(16-bit) → RDATA, dispatched by qtype", with the qtype/qclass reads mapped
through the §3 tables and an unmapped code an `UnsupportedCode` failure. -/
def specParseRecord (buffer source : List Nat) : Except Err (List Nat × Record) :=
  match parse_names buffer source [] with
  | .error e => .error e
  | .ok (b1, name, t) =>
    match specReadU16 b1 with
    | .error e => .error e
    | .ok (b2, qtCode) =>
      match qtypeOfCode qtCode with
      | none => .error .UnsupportedCode
      | some qtype =>
        match specReadU16 b2 with
        | .error e => .error e
        | .ok (b3, qcCode) =>
          match qclassOfCode qcCode with
          | none => .error .UnsupportedCode
          | some qclass =>
            match specReadU32 b3 with
            | .error e => .error e
            | .ok (b4, ttl) =>
              match specReadU16 b4 with
              | .error e => .error e
              | .ok (b5, rd_length) =>
                match specRData qtype rd_length b5 source t with
                | .error e => .error e
                | .ok (b6, rdata) =>
                  .ok (b6, ⟨name, qtype, qclass, ttl, rd_length, rdata⟩)

/-- Number of distinct offsets of the visited set that lie inside a source
of length `n` — the quantity pointer indirection strictly grows, bounded by
`n`. -/
def visitedCard (n : Nat) (v : List Nat) : Nat :=
  (v.dedup.filter (fun x => decide (x < n))).length

theorem visitedCard_le (n : Nat) (v : List Nat) : visitedCard n v ≤ n := by
  unfold visitedCard
  have hnd : (v.dedup.filter (fun x => decide (x < n))).Nodup :=
    (List.nodup_dedup v).filter _
  have hsub : (v.dedup.filter (fun x => decide (x < n))).toFinset ⊆ Finset.range n := by
    intro x hx
    rw [List.mem_toFinset] at hx
    rw [Finset.mem_range]
    exact of_decide_eq_true (List.mem_filter.mp hx).2
  calc (v.dedup.filter (fun x => decide (x < n))).length
      = (v.dedup.filter (fun x => decide (x < n))).toFinset.card :=
        (List.toFinset_card_of_nodup hnd).symm
    _ ≤ (Finset.range n).card := Finset.card_le_card hsub
    _ = n := Finset.card_range n

theorem visitedCard_cons (n off : Nat) (v : List Nat) (h1 : off < n) (h2 : off ∉ v) :
    visitedCard n (off :: v) = visitedCard n v + 1 := by
  unfold visitedCard
  rw [List.dedup_cons_of_not_mem h2]
  rw [List.filter_cons_of_pos]
  · rfl
  · exact decide_eq_true h1

/-- The pointer-chasing loop is insensitive to the fuel as long as the fuel
dominates the number of source offsets not yet visited: each indirection
adds a fresh in-bounds offset to the visited set, so at most
`source.length` indirections can happen before the cycle check fires. -/
theorem followJump_fuel_stable :
    ∀ (fuel fuel2 offset : Nat) (source visited : List Nat) (acc : List String),
      source.length + 1 ≤ visitedCard source.length visited + fuel →
      source.length + 1 ≤ visitedCard source.length visited + fuel2 →
      followJump fuel offset source visited acc = followJump fuel2 offset source visited acc := by
  intro fuel
  induction fuel with
  | zero =>
    intro fuel2 offset source visited acc h1 h2
    have := visitedCard_le source.length visited
    omega
  | succ fuel ih =>
    intro fuel2 offset source visited acc h1 h2
    match fuel2 with
    | 0 =>
      have := visitedCard_le source.length visited
      omega
    | fuel2 + 1 =>
      show followJump (fuel + 1) offset source visited acc
          = followJump (fuel2 + 1) offset source visited acc
      unfold followJump
      by_cases hmem : offset ∈ visited
      · rw [if_pos hmem, if_pos hmem]
      · rw [if_neg hmem, if_neg hmem]
        by_cases hlen : source.length ≤ offset
        · rw [if_pos hlen, if_pos hlen]
        · rw [if_neg hlen, if_neg hlen]
          cases hread : readLabelsAux (source.drop offset) 0 [] acc with
          | error e => rfl
          | ok step =>
            cases step with
            | done rest labels => rfl
            | jump rest offset2 labels =>
              have hcard : visitedCard source.length (offset :: visited)
                  = visitedCard source.length visited + 1 :=
                visitedCard_cons _ _ _ (by omega) hmem
              exact ih fuel2 offset2 source (offset :: visited) labels
                (by omega) (by omega)

/-- Name decoding computes the same answer under any fuel at least
`source.length + 1`: the fixed fuel of `parse_names` is never exhausted, so
the decode genuinely terminates on every input. -/
theorem parseNames_fuel_stable (buffer source t : List Nat) (k : Nat)
    (hk : source.length + 1 ≤ k) :
    parseNamesWithFuel k buffer source t = parse_names buffer source t := by
  unfold parse_names parseNamesWithFuel
  cases hread : readLabelsAux buffer 0 [] [] with
  | error e => rfl
  | ok step =>
    cases step with
    | done rest labels => rfl
    | jump rest offset labels =>
      dsimp only
      rw [followJump_fuel_stable k (source.length + 1) offset source t labels
        (by omega) (by omega)]

/-- A name decode beginning with a compression pointer whose 14-bit offset is
already in the visited set fails with `MalformedName` immediately. -/
theorem parse_names_revisit (source visited : List Nat) (L o2 : Nat) (rest : List Nat)
    (hL : 192 ≤ L) (hmem : (L % 64) * 256 + o2 ∈ visited) :
    parse_names (L :: o2 :: rest) source visited = .error .MalformedName := by
  have h0 : ¬ L = 0 := by omega
  have h64 : ¬ L < 64 := by omega
  unfold parse_names parseNamesWithFuel
  unfold readLabelsAux
  rw [if_neg h0, if_neg h64, if_pos hL]
  dsimp only
  unfold followJump
  rw [if_pos hmem]

/-- C3: name decoding terminates on every input.  First conjunct: the decode
is stable under any pointer fuel of at least `source.length + 1`, i.e. the
per-decode visited set bounds the indirection depth and the decode never
runs out.  Second conjunct: following a pointer to an offset already in the
visited set of the same decode fails with `MalformedName`.  Third conjunct:
the concrete self-referencing pointer `C0 00` at offset 0, which loops
forever without cycle protection, fails with `MalformedName`. -/
theorem c3_name_decoding_terminates :
    (∀ (buffer source t : List Nat) (k : Nat), source.length + 1 ≤ k →
      parseNamesWithFuel k buffer source t = parse_names buffer source t) ∧
    (∀ (source visited : List Nat) (L o2 : Nat) (rest : List Nat),
      192 ≤ L → (L % 64) * 256 + o2 ∈ visited →
      parse_names (L :: o2 :: rest) source visited = .error .MalformedName) ∧
    parse_names [192, 0] [192, 0] [] = .error .MalformedName :=
  ⟨parseNames_fuel_stable, parse_names_revisit, rfl⟩

/-- Witness for C3: both quantified conjuncts applied at concrete inputs. -/
theorem c3_witness :
    parseNamesWithFuel 2 [0] [] [] = parse_names [0] [] [] ∧
    parse_names [192, 3] [] [3] = .error .MalformedName :=
  ⟨c3_name_decoding_terminates.1 [0] [] [] 2 (by decide),
   c3_name_decoding_terminates.2.1 [] [3] 192 3 [] (by decide) (by decide)⟩

/-- C1: whenever the record header's qtype field holds a wire code outside
the recognized table (so the RDATA dispatcher has no arm for it), the record
decode returns an `UnsupportedCode` failure.  The `QType` enumeration being
closed (§3) with all seven constructors handled by the dispatch, the
`unimplemented!()` crash arm of `record.rs` line 210 is unreachable: no
input terminates the process. -/
theorem c1_unhandled_qtype_unsupported :
    ∀ (b s rest rest2 : List Nat) (name : String) (t : List Nat) (c1 c2 : Nat),
      parse_names b s [] = .ok (rest, name, t) →
      rest = c1 :: c2 :: rest2 →
      qtypeOfCode (c1 * 256 + c2) = none →
      parse_record b s = .error .UnsupportedCode := by
  intro b s rest rest2 name t c1 c2 hpn hrest hcode
  subst hrest
  unfold parse_record
  rw [hpn]
  dsimp only
  unfold parse_qtype be_u16
  dsimp only
  rw [hcode]

/-- Witness for C1: qtype code 255, the spec's §8 example of an unassigned
code, makes the record decode fail with `UnsupportedCode`. -/
theorem c1_witness :
    parse_names [0, 0, 255] [] [] = .ok ([0, 255], "", []) ∧
    qtypeOfCode (0 * 256 + 255) = none ∧
    parse_record [0, 0, 255] [] = .error .UnsupportedCode :=
  ⟨rfl, rfl, c1_unhandled_qtype_unsupported [0, 0, 255] [] [0, 255] [] "" [] 0 255 rfl rfl rfl⟩

/-- C9: the scope of the pointer-cycle visited set differs by record type.
First conjunct (general): in a record with NS RDATA, the RDATA name decode
receives the visited set `t` already populated by the owner-name decode, so
an RDATA pointer to an offset in `t` fails with `MalformedName`.  The
remaining conjuncts evaluate concrete records whose owner name is a pointer
to offset `X` holding the name "a" and whose RDATA names point to the same
offset `X`: the MX and SOA records fail with `MalformedName` (shared set),
while the otherwise identical CNAME record decodes successfully (fresh,
empty set). -/
theorem c9_visited_set_scope :
    (∀ (b s rdrest : List Nat) (name : String) (t : List Nat)
        (L o2 t1 t2 t3 t4 r1 r2 : Nat),
      parse_names b s [] =
        .ok (0 :: 2 :: 0 :: 1 :: t1 :: t2 :: t3 :: t4 :: r1 :: r2 :: L :: o2 :: rdrest, name, t) →
      192 ≤ L → (L % 64) * 256 + o2 ∈ t →
      parse_record b s = .error .MalformedName) ∧
    parse_record [192, 16, 0, 15, 0, 1, 0, 0, 0, 0, 0, 4, 0, 10, 192, 16, 1, 97, 0]
        [192, 16, 0, 15, 0, 1, 0, 0, 0, 0, 0, 4, 0, 10, 192, 16, 1, 97, 0] =
      .error .MalformedName ∧
    parse_record [192, 14, 0, 6, 0, 1, 0, 0, 0, 0, 0, 20, 192, 14, 1, 97, 0]
        [192, 14, 0, 6, 0, 1, 0, 0, 0, 0, 0, 20, 192, 14, 1, 97, 0] =
      .error .MalformedName ∧
    parse_record [192, 14, 0, 5, 0, 1, 0, 0, 0, 0, 0, 2, 192, 14, 1, 97, 0]
        [192, 14, 0, 5, 0, 1, 0, 0, 0, 0, 0, 2, 192, 14, 1, 97, 0] =
      .ok ([1, 97, 0], ⟨"a", .CNAME, .IN, 0, 2, .CNAME "a"⟩) := by
  refine ⟨?_, rfl, rfl, rfl⟩
  intro b s rdrest name t L o2 t1 t2 t3 t4 r1 r2 hpn hL hmem
  unfold parse_record
  rw [hpn]
  dsimp only
  rw [show parse_qtype (0 :: 2 :: 0 :: 1 :: t1 :: t2 :: t3 :: t4 :: r1 :: r2 :: L :: o2 :: rdrest)
        = .ok (0 :: 1 :: t1 :: t2 :: t3 :: t4 :: r1 :: r2 :: L :: o2 :: rdrest, QType.NS) from rfl]
  dsimp only
  rw [show parse_qclass (0 :: 1 :: t1 :: t2 :: t3 :: t4 :: r1 :: r2 :: L :: o2 :: rdrest)
        = .ok (t1 :: t2 :: t3 :: t4 :: r1 :: r2 :: L :: o2 :: rdrest, QClass.IN) from rfl]
  dsimp only
  rw [show parse_ttl (t1 :: t2 :: t3 :: t4 :: r1 :: r2 :: L :: o2 :: rdrest)
        = .ok (r1 :: r2 :: L :: o2 :: rdrest, ((t1 * 256 + t2) * 256 + t3) * 256 + t4) from rfl]
  dsimp only
  rw [show parse_rdlength (r1 :: r2 :: L :: o2 :: rdrest)
        = .ok (L :: o2 :: rdrest, r1 * 256 + r2) from rfl]
  dsimp only
  unfold parseRDataDispatch
  rw [parse_names_revisit s t L o2 rdrest hL hmem]

/-- Witness for C9: the general NS conjunct applied to a concrete record
whose owner name is a pointer to offset 14 (the name "a") and whose NS RDATA
is a pointer to the same offset. -/
theorem c9_witness :
    parse_record [192, 14, 0, 2, 0, 1, 0, 0, 0, 0, 0, 2, 192, 14, 1, 97, 0]
        [192, 14, 0, 2, 0, 1, 0, 0, 0, 0, 0, 2, 192, 14, 1, 97, 0] =
      .error .MalformedName :=
  c9_visited_set_scope.1 _ _ [1, 97, 0] "a" [14] 192 14 0 0 0 0 0 2 rfl
    (by decide) (by decide)

/-- C4: the byte sequence
`06 67 6f 6f 67 6c 65 03 63 6f 6d 00 00 01 00 01 00 00 0e 10 00 04 01 02 03 04`,
deserialized as a record with the buffer also serving as the pointer source,
yields `Record{name:"google.com", qtype:A, qclass:IN, ttl:3600s, rd_length:4,
rdata:A(1.2.3.4)}` and consumes the whole buffer. -/
theorem c4_record_example :
    Record.deserialize
        ⟨[6, 103, 111, 111, 103, 108, 101, 3, 99, 111, 109, 0,
          0, 1, 0, 1, 0, 0, 14, 16, 0, 4, 1, 2, 3, 4],
         [6, 103, 111, 111, 103, 108, 101, 3, 99, 111, 109, 0,
          0, 1, 0, 1, 0, 0, 14, 16, 0, 4, 1, 2, 3, 4]⟩ =
      (⟨[],
        [6, 103, 111, 111, 103, 108, 101, 3, 99, 111, 109, 0,
         0, 1, 0, 1, 0, 0, 14, 16, 0, 4, 1, 2, 3, 4]⟩,
       .ok ⟨"google.com", .A, .IN, 3600, 4, .A 1 2 3 4⟩) := by
  rfl

/-- C7: for every call to `Record.deserialize`, the buffer's `source` field
is left unchanged, on success and on failure alike. -/
theorem c7_source_never_mutated (b : Buffer) :
    (Record.deserialize b).1.source = b.source := by
  unfold Record.deserialize
  cases h : parse_record b.current b.source with
  | ok v => obtain ⟨buf, r⟩ := v; rfl
  | error e => rfl

/-- C10: `Record.deserialize` is atomic with respect to the buffer — if the
underlying record parse fails, the buffer is returned exactly as it was;
`current` is advanced (to the parse's unconsumed rest) only on success. -/
theorem c10_deserialize_atomic (b : Buffer) :
    ((∃ e, (Record.deserialize b).2 = .error e) → Record.deserialize b = (b, (Record.deserialize b).2)) ∧
    (∀ rest r, parse_record b.current b.source = .ok (rest, r) →
      Record.deserialize b = ({ b with current := rest }, .ok r)) := by
  constructor
  · rintro ⟨e, he⟩
    unfold Record.deserialize at *
    cases h : parse_record b.current b.source with
    | ok v => obtain ⟨buf, r⟩ := v; rw [h] at he; exact absurd he (by simp)
    | error e2 => rfl
  · intro rest r h
    unfold Record.deserialize
    rw [h]

/-- Witness for C10: a failing input (the empty buffer) is returned
untouched, and the successful C4 input advances `current` to the empty
rest. -/
theorem c10_witness :
    Record.deserialize ⟨[], []⟩ = (⟨[], []⟩, (Record.deserialize ⟨[], []⟩).2) ∧
    Record.deserialize
        ⟨[6, 103, 111, 111, 103, 108, 101, 3, 99, 111, 109, 0,
          0, 1, 0, 1, 0, 0, 14, 16, 0, 4, 1, 2, 3, 4],
         [6, 103, 111, 111, 103, 108, 101, 3, 99, 111, 109, 0,
          0, 1, 0, 1, 0, 0, 14, 16, 0, 4, 1, 2, 3, 4]⟩ =
      (⟨[],
        [6, 103, 111, 111, 103, 108, 101, 3, 99, 111, 109, 0,
         0, 1, 0, 1, 0, 0, 14, 16, 0, 4, 1, 2, 3, 4]⟩,
       .ok ⟨"google.com", .A, .IN, 3600, 4, .A 1 2 3 4⟩) := by
  constructor
  · exact (c10_deserialize_atomic ⟨[], []⟩).1 ⟨.TruncatedInput, rfl⟩
  · exact (c10_deserialize_atomic _).2 []
      ⟨"google.com", .A, .IN, 3600, 4, .A 1 2 3 4⟩ rfl

/-- Counterexample to C2: a record whose header declares `rd_length = 5` but
whose RDATA is dispatched as an A record decodes successfully, the A decode
consuming only 4 bytes (one byte, `9`, of the declared 5-byte region is left
over as the returned rest); no `LengthMismatch` failure occurs, refuting the
claim that such a decode fails. -/
theorem c2_counterexample :
    parse_record [0, 0, 1, 0, 1, 0, 0, 0, 0, 0, 5, 1, 2, 3, 4, 9] [] =
      .ok ([9], ⟨"", .A, .IN, 0, 5, .A 1 2 3 4⟩) ∧
    parse_record [0, 0, 1, 0, 1, 0, 0, 0, 0, 0, 5, 1, 2, 3, 4, 9] [] ≠
      .error .LengthMismatch := by
  refine ⟨rfl, fun h => ?_⟩
  rw [show parse_record [0, 0, 1, 0, 1, 0, 0, 0, 0, 0, 5, 1, 2, 3, 4, 9] [] =
        .ok ([9], ⟨"", .A, .IN, 0, 5, .A 1 2 3 4⟩) from rfl] at h
  exact Except.noConfusion h

/-- C2 as amended: the record decoder performs no comparison between
`rd_length` and the bytes the RDATA decode consumes — an A record decodes
successfully consuming exactly 4 RDATA bytes whatever `rd_length` declares
(first conjunct, `rd_length` bytes `h`/`l` arbitrary, exactly the four bytes
`a b c d` consumed with `rest` returned), while TXT consumes exactly
`rd_length` bytes by construction of `take_token` (second conjunct). -/
theorem c2_amended_no_length_check :
    (∀ (h l a b c d : Nat) (rest source : List Nat),
      parse_record (0 :: 0 :: 1 :: 0 :: 1 :: 0 :: 0 :: 0 :: 0 :: h :: l :: a :: b :: c :: d :: rest)
          source =
        .ok (rest, ⟨"", .A, .IN, 0, h * 256 + l, .A a b c d⟩)) ∧
    (∀ (buffer : List Nat) (n : Nat), n ≤ buffer.length →
      take_token buffer n = .ok (buffer.drop n, bytesToString (buffer.take n))) := by
  constructor
  · intros; rfl
  · intro buffer n h
    simp [take_token, takeBytes, h]

/-- Witness for C2's amended theorem: both conjuncts applied at concrete
inputs. -/
theorem c2_amended_witness :
    parse_record [0, 0, 1, 0, 1, 0, 0, 0, 0, 0, 7, 1, 2, 3, 4] [] =
      .ok ([], ⟨"", .A, .IN, 0, 7, .A 1 2 3 4⟩) ∧
    take_token [104, 105, 33] 2 = .ok ([33], bytesToString [104, 105]) := by
  constructor
  · exact c2_amended_no_length_check.1 0 7 1 2 3 4 [] []
  · exact c2_amended_no_length_check.2 [104, 105, 33] 2 (by decide)

/-- C6: an RDATA region shorter than what the type's layout requires is a
failure, never a silent truncation — the A decode fails with
`TruncatedInput` whenever fewer than 4 bytes remain (first conjunct), and
concretely a record declaring `rd_length = 4` with only the 2 bytes `1 2`
remaining fails with `TruncatedInput` (second conjunct). -/
theorem c6_truncated_rdata_fails :
    (∀ buffer : List Nat, buffer.length < 4 →
      parse_ipv4 buffer = .error .TruncatedInput) ∧
    parse_record [0, 0, 1, 0, 1, 0, 0, 0, 0, 0, 4, 1, 2] [] = .error .TruncatedInput := by
  constructor
  · intro buffer h
    match buffer with
    | [] => rfl
    | [_] => rfl
    | [_, _] => rfl
    | [_, _, _] => rfl
    | _ :: _ :: _ :: _ :: _ => simp at h; omega
  · rfl

/-- Witness for C6: the general conjunct applied at the 2-byte buffer. -/
theorem c6_witness :
    ([1, 2] : List Nat).length < 4 ∧ parse_ipv4 [1, 2] = .error .TruncatedInput :=
  ⟨by decide, c6_truncated_rdata_fails.1 [1, 2] (by decide)⟩

/-- C8: the pre-encoding validation accepts a domain name exactly when its
total length is at most 255 bytes and every dot-separated label is at most
63 bytes; otherwise `validate` returns an error (and `main` builds no
message). -/
theorem c8_validator_length_rules (address : String) :
    (∃ v, validate address = .ok v) ↔
      (address.utf8ByteSize ≤ 255 ∧ ∀ l ∈ splitDot address.data, labelByteSize l ≤ 63) := by
  unfold validate check_length check_token_length
  cases hf : (splitDot address.data).find? (fun l => decide (63 < labelByteSize l)) with
  | none =>
    have hall : ∀ l ∈ splitDot address.data, labelByteSize l ≤ 63 := by
      intro l hl
      have := List.find?_eq_none.mp hf l hl
      simpa using this
    by_cases h1 : address.utf8ByteSize ≤ 255
    · simp only [hf, h1]
      simp
      exact hall
    · simp [hf, h1]
  | some tok =>
    have htok : 63 < labelByteSize tok := by simpa using List.find?_some hf
    have hmem := List.mem_of_find?_eq_some hf
    by_cases h1 : address.utf8ByteSize ≤ 255
    · simp [hf, h1]
      exact ⟨tok, hmem, htok⟩
    · simp [hf, h1]

/-- Witness for C8: "google.com" satisfies both length rules and is
accepted. -/
theorem c8_witness : ∃ v, validate "google.com" = .ok v :=
  (c8_validator_length_rules "google.com").mpr (by decide)

theorem specReadU16_eq (b : List Nat) : specReadU16 b = be_u16 b := by
  match b with
  | [] => rfl
  | [x] => rfl
  | x :: y :: rest =>
    simp [specReadU16, be_u16, takeBytes, List.foldl]

theorem specReadU32_eq (b : List Nat) : specReadU32 b = be_u32 b := by
  match b with
  | [] => rfl
  | [x] => rfl
  | [x, y] => rfl
  | [x, y, z] => rfl
  | x :: y :: z :: w :: rest =>
    simp [specReadU32, be_u32, takeBytes, List.foldl]

theorem specRData_eq (q : QType) (n : Nat) (b s t : List Nat) :
    specRData q n b s t = parseRDataDispatch q n b s t := by
  cases q with
  | A =>
    match b with
    | [] => rfl
    | [x] => rfl
    | [x, y] => rfl
    | [x, y, z] => rfl
    | x :: y :: z :: w :: rest =>
      simp [specRData, parseRDataDispatch, parse_ipv4, takeBytes]
  | AAAA => rfl
  | CNAME => rfl
  | NS => rfl
  | TXT =>
    unfold specRData parseRDataDispatch take_token
    cases h : takeBytes n b with
    | error e => rfl
    | ok v => obtain ⟨rest, bs⟩ := v; rfl
  | MX =>
    unfold specRData parseRDataDispatch
    dsimp only
    simp only [specReadU16_eq]
  | SOA =>
    unfold specRData parseRDataDispatch
    dsimp only
    simp only [specReadU32_eq]

/-- C5: the record decoder implements exactly the spec's §4.5 layout — it
reads, in order, a name, qtype, qclass, a 32-bit ttl, a 16-bit rd_length,
and then dispatches the RDATA by qtype with the table layouts (A: 4 raw
bytes as IPv4; AAAA: 16 raw bytes as IPv6; CNAME/NS: one possibly-compressed
name; TXT: exactly rd_length raw bytes as one opaque string; MX: 16-bit
preference then one name; SOA: two names then five 32-bit fields).
`specParseRecord` is transcribed from the spec's words and shown equal to
the source-embedded `parse_record` on every input. -/
theorem c5_record_layout_refinement :
    ∀ buffer source : List Nat, specParseRecord buffer source = parse_record buffer source := by
  intro b s
  unfold specParseRecord parse_record
  cases h1 : parse_names b s [] with
  | error e => rfl
  | ok v =>
    obtain ⟨b1, name, t⟩ := v
    dsimp only
    rw [specReadU16_eq]
    unfold parse_qtype
    cases h2 : be_u16 b1 with
    | error e => rfl
    | ok v2 =>
      obtain ⟨b2, code⟩ := v2
      dsimp only
      cases h3 : qtypeOfCode code with
      | none => rfl
      | some qtype =>
        dsimp only
        rw [specReadU16_eq]
        unfold parse_qclass
        cases h4 : be_u16 b2 with
        | error e => rfl
        | ok v4 =>
          obtain ⟨b3, ccode⟩ := v4
          dsimp only
          cases h5 : qclassOfCode ccode with
          | none => rfl
          | some qclass =>
            dsimp only
            rw [specReadU32_eq]
            unfold parse_ttl
            cases h6 : be_u32 b3 with
            | error e => rfl
            | ok v6 =>
              obtain ⟨b4, ttl⟩ := v6
              dsimp only
              rw [specReadU16_eq]
              unfold parse_rdlength
              cases h7 : be_u16 b4 with
              | error e => rfl
              | ok v7 =>
                obtain ⟨b5, rdl⟩ := v7
                dsimp only
                rw [specRData_eq]

end Who
